import Mathlib

/-!
# Mission change detector (Copter): response classifier

A shallow embedding of
`AP_Mission_ChangeDetector_Copter::check_for_mission_change`
(`libraries/AP_Mission/AP_Mission_ChangeDetector_Copter.cpp`) and theorems about
the response it computes.

The C++ method is a member function of a class whose only state is the cached
command window `mis_change_detect`.  It first copies that window into
`cmd_list_bak`, then calls the base-class differ, which overwrites
`mis_change_detect` with the freshly read window, returns whether the window
changed and writes the first changed index through a reference.  The embedding
passes this state explicitly: the old window, the new window, the differ's
boolean result and the index it wrote are arguments of the Lean function.
The `gcs().send_text` calls only emit diagnostics and are left out.
-/

namespace AP_Mission_ChangeDetector_Copter

/-! ## Data model -/

/-- The numeric identifiers of the four navigation commands that the classifier
compares against.  They come from the MAVLink `MAV_CMD` enumeration, whose
generated header is not among the sources, so the model takes them as a
parameter. -/
structure MAV_CMD where
  MAV_CMD_NAV_WAYPOINT : Nat
  MAV_CMD_NAV_LOITER_UNLIM : Nat
  MAV_CMD_NAV_LOITER_TIME : Nat
  MAV_CMD_NAV_SPLINE_WAYPOINT : Nat
  deriving DecidableEq, Repr

/-- The spline identifier is different from each of the three waypoint-family
identifiers (true of every MAVLink dialect; the C++ code relies on it when it
treats "was spline" as the alternative of "was wp"). -/
def MAV_CMD.spline_distinct (ids : MAV_CMD) : Prop :=
  ids.MAV_CMD_NAV_SPLINE_WAYPOINT ≠ ids.MAV_CMD_NAV_WAYPOINT ∧
  ids.MAV_CMD_NAV_SPLINE_WAYPOINT ≠ ids.MAV_CMD_NAV_LOITER_UNLIM ∧
  ids.MAV_CMD_NAV_SPLINE_WAYPOINT ≠ ids.MAV_CMD_NAV_LOITER_TIME

instance (ids : MAV_CMD) : Decidable ids.spline_distinct := by
  unfold MAV_CMD.spline_distinct
  infer_instance

/-- The identifiers of the MAVLink common message set. -/
def mavlink_common : MAV_CMD :=
  { MAV_CMD_NAV_WAYPOINT := 16
    MAV_CMD_NAV_LOITER_UNLIM := 17
    MAV_CMD_NAV_LOITER_TIME := 19
    MAV_CMD_NAV_SPLINE_WAYPOINT := 82 }

/-- The fields of `AP_Mission::Mission_Command` that the classifier reads: the
command identifier `id` and the first parameter `p1` (both `uint16_t`; only
equality tests and `p1 > 0` are applied to them, so no wrap-around arises). -/
structure Mission_Command where
  id : Nat
  p1 : Nat
  deriving DecidableEq, Repr

/-- Modelled from the spec: `mis_change_detect_cmd_max`, the capacity of the
command window, is declared in a header that is not among the sources; the
spec describes the window as current, next and next-next command, and the
code indexes `cmd[0]`, `cmd[1]` and `cmd[2]`. -/
abbrev mis_change_detect_cmd_max : Nat := 3

/-- The cached window `MissionCommandList`: a fixed array of commands and the
number of populated slots.  Slots at indices `≥ cmd_count` still hold some
value (whatever was stored there last). -/
structure MissionCommandList where
  cmd : Fin mis_change_detect_cmd_max → Mission_Command
  cmd_count : Nat

/-- The responses `ChangeResponseType` returned by the classifier. -/
inductive ChangeResponseType where
  | NONE
  | ADD_NEXT_WAYPOINT
  | RESET_REQUIRED
  deriving DecidableEq, Repr

/-! ## The classifier -/

/-- Embedding of `AP_Mission_ChangeDetector_Copter::check_for_mission_change`.

* `cmd_list_bak` is the backup of the cached window taken on entry;
* `mis_change_detect` is the cached window after the base-class differ ran;
* `changed` is the differ's return value and `first_changed_cmd_idx` the index
  it wrote;
* `using_next_command` is the method's argument.

Each `if` is the `if` of the source at the same place and each branch
result is the `return` found there; the last `NONE` is the fall-through
return at the end of the function. -/
def check_for_mission_change (ids : MAV_CMD)
    (cmd_list_bak mis_change_detect : MissionCommandList)
    (changed : Bool) (first_changed_cmd_idx : Nat)
    (using_next_command : Bool) : ChangeResponseType :=
  if !changed then
    -- the mission has not changed
    ChangeResponseType.NONE
  else if first_changed_cmd_idx == 0 then
    -- if the current command has changed a reset is always required
    ChangeResponseType.RESET_REQUIRED
  else
    let cmd0_has_pause : Bool := decide ((cmd_list_bak.cmd 0).p1 > 0)
    let cmd0_was_wp : Bool :=
      ((cmd_list_bak.cmd 0).id == ids.MAV_CMD_NAV_WAYPOINT ||
       (cmd_list_bak.cmd 0).id == ids.MAV_CMD_NAV_LOITER_UNLIM ||
       (cmd_list_bak.cmd 0).id == ids.MAV_CMD_NAV_LOITER_TIME)
    let cmd0_was_spline : Bool :=
      ((cmd_list_bak.cmd 0).id == ids.MAV_CMD_NAV_SPLINE_WAYPOINT)
    if !cmd0_was_wp && !cmd0_was_spline then
      -- 1st was neither wp nor spline
      ChangeResponseType.NONE
    else
      let cmd1_was_wp : Bool :=
        ((cmd_list_bak.cmd 1).id == ids.MAV_CMD_NAV_WAYPOINT ||
         (cmd_list_bak.cmd 1).id == ids.MAV_CMD_NAV_LOITER_UNLIM ||
         (cmd_list_bak.cmd 1).id == ids.MAV_CMD_NAV_LOITER_TIME)
      let cmd1_was_spline : Bool :=
        ((cmd_list_bak.cmd 1).id == ids.MAV_CMD_NAV_SPLINE_WAYPOINT)
      if cmd0_has_pause || (!cmd1_was_wp && !cmd1_was_spline) then
        -- 1st has pause
        ChangeResponseType.NONE
      else
        let cmd1_added : Bool :=
          (cmd_list_bak.cmd_count == 1) && decide (mis_change_detect.cmd_count > 1)
        let cmd1_is_wp : Bool :=
          ((mis_change_detect.cmd 1).id == ids.MAV_CMD_NAV_WAYPOINT ||
           (mis_change_detect.cmd 1).id == ids.MAV_CMD_NAV_LOITER_UNLIM ||
           (mis_change_detect.cmd 1).id == ids.MAV_CMD_NAV_LOITER_TIME)
        let cmd1_is_spline : Bool :=
          ((cmd_list_bak.cmd 1).id == ids.MAV_CMD_NAV_SPLINE_WAYPOINT)
        if cmd0_was_wp && cmd1_added && cmd1_is_wp then
          if cmd1_is_wp then
            -- 2nd is wp
            ChangeResponseType.ADD_NEXT_WAYPOINT
          else if cmd1_is_spline then
            -- 2nd is spline
            ChangeResponseType.RESET_REQUIRED
          else
            -- 2nd is neither wp nor spline
            ChangeResponseType.NONE
        else if cmd0_was_wp then
          -- 1st was wp
          if cmd1_was_wp then
            -- 2nd was wp
            if first_changed_cmd_idx == 1 then
              -- 2nd has changed
              if using_next_command then
                ChangeResponseType.RESET_REQUIRED
              else
                ChangeResponseType.NONE
            else
              -- 3rd has changed
              ChangeResponseType.NONE
          else
            ChangeResponseType.RESET_REQUIRED
        else
          -- 1st was spline
          if cmd1_was_wp then
            -- 2nd was wp
            if first_changed_cmd_idx == 1 then
              ChangeResponseType.RESET_REQUIRED
            else
              ChangeResponseType.NONE
          else if cmd1_was_spline then
            -- 2nd was spline
            let cmd1_has_pause : Bool := decide ((cmd_list_bak.cmd 1).p1 > 0)
            let cmd2_was_wp : Bool :=
              ((cmd_list_bak.cmd 2).id == ids.MAV_CMD_NAV_WAYPOINT ||
               (cmd_list_bak.cmd 2).id == ids.MAV_CMD_NAV_LOITER_UNLIM ||
               (cmd_list_bak.cmd 2).id == ids.MAV_CMD_NAV_LOITER_TIME)
            let cmd2_was_spline : Bool :=
              ((cmd_list_bak.cmd 2).id == ids.MAV_CMD_NAV_SPLINE_WAYPOINT)
            if (first_changed_cmd_idx == 2) &&
                (cmd1_has_pause || (!cmd2_was_wp && !cmd2_was_spline)) then
              ChangeResponseType.NONE
            else
              ChangeResponseType.RESET_REQUIRED
          else
            -- got to end
            ChangeResponseType.NONE

/-! ## The classifier with its return statements -/

/-- The sixteen `return` statements of `check_for_mission_change`, named by
their line in `AP_Mission_ChangeDetector_Copter.cpp`. -/
inductive ReturnSite where
  /-- Line 19, "the mission has not changed". -/
  | line_19
  /-- Line 26, "1st comment changed, Reset". -/
  | line_26
  /-- Line 40, "1st was neither wp nor spline, None". -/
  | line_40
  /-- Line 51, "1st has pause, None". -/
  | line_51
  /-- Line 67, addition block, "2nd is wp". -/
  | line_67
  /-- Line 71, addition block, "2nd is spline". -/
  | line_71
  /-- Line 75, addition block, "2nd is nether wp or spline". -/
  | line_75
  /-- Line 87, "1st is wp, 2nd wp changed, Reset". -/
  | line_87
  /-- Line 90, "1st is wp, not using changed 2nd wp, None". -/
  | line_90
  /-- Line 95, "1st is wp, 2nd wp same, None". -/
  | line_95
  /-- Line 100, "1st is wp, 2nd spline with change, Reset". -/
  | line_100
  /-- Line 110, "1st is spline, 2nd wp changed". -/
  | line_110
  /-- Line 114, "1st is spline, 2nd wp same, None". -/
  | line_114
  /-- Line 127, "1st is spline, 2nd spline with pause, None". -/
  | line_127
  /-- Line 130, "1st is spline, 2nd spline with change, Reset". -/
  | line_130
  /-- Line 137, "got to end", the return after the last `if`. -/
  | line_137
  deriving DecidableEq, Repr

/-- The same chain of tests as `check_for_mission_change`, returning with each
value the `return` statement that produced it. -/
def check_for_mission_change_traced (ids : MAV_CMD)
    (cmd_list_bak mis_change_detect : MissionCommandList)
    (changed : Bool) (first_changed_cmd_idx : Nat)
    (using_next_command : Bool) : ChangeResponseType × ReturnSite :=
  if !changed then
    (ChangeResponseType.NONE, ReturnSite.line_19)
  else if first_changed_cmd_idx == 0 then
    (ChangeResponseType.RESET_REQUIRED, ReturnSite.line_26)
  else
    let cmd0_has_pause : Bool := decide ((cmd_list_bak.cmd 0).p1 > 0)
    let cmd0_was_wp : Bool :=
      ((cmd_list_bak.cmd 0).id == ids.MAV_CMD_NAV_WAYPOINT ||
       (cmd_list_bak.cmd 0).id == ids.MAV_CMD_NAV_LOITER_UNLIM ||
       (cmd_list_bak.cmd 0).id == ids.MAV_CMD_NAV_LOITER_TIME)
    let cmd0_was_spline : Bool :=
      ((cmd_list_bak.cmd 0).id == ids.MAV_CMD_NAV_SPLINE_WAYPOINT)
    if !cmd0_was_wp && !cmd0_was_spline then
      (ChangeResponseType.NONE, ReturnSite.line_40)
    else
      let cmd1_was_wp : Bool :=
        ((cmd_list_bak.cmd 1).id == ids.MAV_CMD_NAV_WAYPOINT ||
         (cmd_list_bak.cmd 1).id == ids.MAV_CMD_NAV_LOITER_UNLIM ||
         (cmd_list_bak.cmd 1).id == ids.MAV_CMD_NAV_LOITER_TIME)
      let cmd1_was_spline : Bool :=
        ((cmd_list_bak.cmd 1).id == ids.MAV_CMD_NAV_SPLINE_WAYPOINT)
      if cmd0_has_pause || (!cmd1_was_wp && !cmd1_was_spline) then
        (ChangeResponseType.NONE, ReturnSite.line_51)
      else
        let cmd1_added : Bool :=
          (cmd_list_bak.cmd_count == 1) && decide (mis_change_detect.cmd_count > 1)
        let cmd1_is_wp : Bool :=
          ((mis_change_detect.cmd 1).id == ids.MAV_CMD_NAV_WAYPOINT ||
           (mis_change_detect.cmd 1).id == ids.MAV_CMD_NAV_LOITER_UNLIM ||
           (mis_change_detect.cmd 1).id == ids.MAV_CMD_NAV_LOITER_TIME)
        let cmd1_is_spline : Bool :=
          ((cmd_list_bak.cmd 1).id == ids.MAV_CMD_NAV_SPLINE_WAYPOINT)
        if cmd0_was_wp && cmd1_added && cmd1_is_wp then
          if cmd1_is_wp then
            (ChangeResponseType.ADD_NEXT_WAYPOINT, ReturnSite.line_67)
          else if cmd1_is_spline then
            (ChangeResponseType.RESET_REQUIRED, ReturnSite.line_71)
          else
            (ChangeResponseType.NONE, ReturnSite.line_75)
        else if cmd0_was_wp then
          if cmd1_was_wp then
            if first_changed_cmd_idx == 1 then
              if using_next_command then
                (ChangeResponseType.RESET_REQUIRED, ReturnSite.line_87)
              else
                (ChangeResponseType.NONE, ReturnSite.line_90)
            else
              (ChangeResponseType.NONE, ReturnSite.line_95)
          else
            (ChangeResponseType.RESET_REQUIRED, ReturnSite.line_100)
        else
          if cmd1_was_wp then
            if first_changed_cmd_idx == 1 then
              (ChangeResponseType.RESET_REQUIRED, ReturnSite.line_110)
            else
              (ChangeResponseType.NONE, ReturnSite.line_114)
          else if cmd1_was_spline then
            let cmd1_has_pause : Bool := decide ((cmd_list_bak.cmd 1).p1 > 0)
            let cmd2_was_wp : Bool :=
              ((cmd_list_bak.cmd 2).id == ids.MAV_CMD_NAV_WAYPOINT ||
               (cmd_list_bak.cmd 2).id == ids.MAV_CMD_NAV_LOITER_UNLIM ||
               (cmd_list_bak.cmd 2).id == ids.MAV_CMD_NAV_LOITER_TIME)
            let cmd2_was_spline : Bool :=
              ((cmd_list_bak.cmd 2).id == ids.MAV_CMD_NAV_SPLINE_WAYPOINT)
            if (first_changed_cmd_idx == 2) &&
                (cmd1_has_pause || (!cmd2_was_wp && !cmd2_was_spline)) then
              (ChangeResponseType.NONE, ReturnSite.line_127)
            else
              (ChangeResponseType.RESET_REQUIRED, ReturnSite.line_130)
          else
            (ChangeResponseType.NONE, ReturnSite.line_137)

/-! ## Vocabulary of the properties and concrete windows -/

/-- A command identifier is waypoint-family: `NAV_WAYPOINT`, `NAV_LOITER_UNLIM`
or `NAV_LOITER_TIME`. -/
def is_wp_family (ids : MAV_CMD) (c : Mission_Command) : Prop :=
  c.id = ids.MAV_CMD_NAV_WAYPOINT ∨ c.id = ids.MAV_CMD_NAV_LOITER_UNLIM ∨
    c.id = ids.MAV_CMD_NAV_LOITER_TIME

/-- A command identifier is spline-family: `NAV_SPLINE_WAYPOINT`. -/
def is_spline_family (ids : MAV_CMD) (c : Mission_Command) : Prop :=
  c.id = ids.MAV_CMD_NAV_SPLINE_WAYPOINT

instance (ids : MAV_CMD) (c : Mission_Command) : Decidable (is_wp_family ids c) := by
  unfold is_wp_family
  infer_instance

instance (ids : MAV_CMD) (c : Mission_Command) : Decidable (is_spline_family ids c) := by
  unfold is_spline_family
  infer_instance

/-- A window given by its three slots and its count. -/
def window (c0 c1 c2 : Mission_Command) (count : Nat) : MissionCommandList :=
  { cmd := ![c0, c1, c2], cmd_count := count }

/-- A `NAV_WAYPOINT` command of the common message set with pause `p1`. -/
def wp (p1 : Nat) : Mission_Command :=
  { id := mavlink_common.MAV_CMD_NAV_WAYPOINT, p1 := p1 }

/-- A `NAV_SPLINE_WAYPOINT` command of the common message set with pause `p1`. -/
def spline (p1 : Nat) : Mission_Command :=
  { id := mavlink_common.MAV_CMD_NAV_SPLINE_WAYPOINT, p1 := p1 }

/-- A slot that was never written since the zero-initialised start: identifier 0
and parameter 0. -/
def empty_slot : Mission_Command := { id := 0, p1 := 0 }

/-- A `NAV_LAND` command of the common message set (identifier 21), a
navigation command that is neither waypoint- nor spline-family. -/
def land : Mission_Command := { id := 21, p1 := 0 }

/-! ## Theorems -/

/-! ### Shared lemmas -/

/-- The three-way identifier test of the source is the waypoint-family
predicate. -/
theorem wp_test_eq (ids : MAV_CMD) (c : Mission_Command) :
    (c.id == ids.MAV_CMD_NAV_WAYPOINT || c.id == ids.MAV_CMD_NAV_LOITER_UNLIM ||
      c.id == ids.MAV_CMD_NAV_LOITER_TIME) = decide (is_wp_family ids c) := by
  rw [Bool.eq_iff_iff]
  simp [is_wp_family, or_assoc]

/-- The spline identifier test of the source is the spline-family predicate. -/
theorem spline_test_eq (ids : MAV_CMD) (c : Mission_Command) :
    (c.id == ids.MAV_CMD_NAV_SPLINE_WAYPOINT) = decide (is_spline_family ids c) := by
  rw [Bool.eq_iff_iff]
  simp [is_spline_family]

/-- A spline-family command is not waypoint-family when the identifiers are
distinct. -/
theorem not_wp_of_spline (ids : MAV_CMD) (c : Mission_Command)
    (hids : ids.spline_distinct) (hc : is_spline_family ids c) : ¬ is_wp_family ids c := by
  obtain ⟨d1, d2, d3⟩ := hids
  unfold is_spline_family at hc
  unfold is_wp_family
  rw [hc]
  tauto

/-- The classifier written with the family predicates: the same chain of
tests as the source, with the boolean locals replaced by the propositions they
decide. -/
theorem check_for_mission_change_eq (ids : MAV_CMD)
    (cmd_list_bak mis_change_detect : MissionCommandList)
    (changed : Bool) (first_changed_cmd_idx : Nat) (using_next_command : Bool) :
    check_for_mission_change ids cmd_list_bak mis_change_detect changed
      first_changed_cmd_idx using_next_command =
    if changed = false then ChangeResponseType.NONE
    else if first_changed_cmd_idx = 0 then ChangeResponseType.RESET_REQUIRED
    else if ¬ is_wp_family ids (cmd_list_bak.cmd 0) ∧
        ¬ is_spline_family ids (cmd_list_bak.cmd 0) then ChangeResponseType.NONE
    else if (cmd_list_bak.cmd 0).p1 > 0 ∨ (¬ is_wp_family ids (cmd_list_bak.cmd 1) ∧
        ¬ is_spline_family ids (cmd_list_bak.cmd 1)) then ChangeResponseType.NONE
    else if is_wp_family ids (cmd_list_bak.cmd 0) ∧ (cmd_list_bak.cmd_count = 1 ∧
        mis_change_detect.cmd_count > 1) ∧ is_wp_family ids (mis_change_detect.cmd 1) then
      ChangeResponseType.ADD_NEXT_WAYPOINT
    else if is_wp_family ids (cmd_list_bak.cmd 0) then
      if is_wp_family ids (cmd_list_bak.cmd 1) then
        if first_changed_cmd_idx = 1 then
          if using_next_command = true then ChangeResponseType.RESET_REQUIRED
          else ChangeResponseType.NONE
        else ChangeResponseType.NONE
      else ChangeResponseType.RESET_REQUIRED
    else if is_wp_family ids (cmd_list_bak.cmd 1) then
      if first_changed_cmd_idx = 1 then ChangeResponseType.RESET_REQUIRED
      else ChangeResponseType.NONE
    else if is_spline_family ids (cmd_list_bak.cmd 1) then
      if first_changed_cmd_idx = 2 ∧ ((cmd_list_bak.cmd 1).p1 > 0 ∨
          (¬ is_wp_family ids (cmd_list_bak.cmd 2) ∧
            ¬ is_spline_family ids (cmd_list_bak.cmd 2))) then ChangeResponseType.NONE
      else ChangeResponseType.RESET_REQUIRED
    else ChangeResponseType.NONE := by
  unfold check_for_mission_change
  simp only [wp_test_eq, spline_test_eq]
  by_cases h : is_wp_family ids (mis_change_detect.cmd 1) <;> cases changed <;> simp [h]

/-- The traced classifier written with the family predicates, test for test
and return for return. -/
theorem check_for_mission_change_traced_eq (ids : MAV_CMD)
    (cmd_list_bak mis_change_detect : MissionCommandList)
    (changed : Bool) (first_changed_cmd_idx : Nat) (using_next_command : Bool) :
    check_for_mission_change_traced ids cmd_list_bak mis_change_detect changed
      first_changed_cmd_idx using_next_command =
    if changed = false then (ChangeResponseType.NONE, ReturnSite.line_19)
    else if first_changed_cmd_idx = 0 then
      (ChangeResponseType.RESET_REQUIRED, ReturnSite.line_26)
    else if ¬ is_wp_family ids (cmd_list_bak.cmd 0) ∧
        ¬ is_spline_family ids (cmd_list_bak.cmd 0) then
      (ChangeResponseType.NONE, ReturnSite.line_40)
    else if (cmd_list_bak.cmd 0).p1 > 0 ∨ (¬ is_wp_family ids (cmd_list_bak.cmd 1) ∧
        ¬ is_spline_family ids (cmd_list_bak.cmd 1)) then
      (ChangeResponseType.NONE, ReturnSite.line_51)
    else if is_wp_family ids (cmd_list_bak.cmd 0) ∧ (cmd_list_bak.cmd_count = 1 ∧
        mis_change_detect.cmd_count > 1) ∧ is_wp_family ids (mis_change_detect.cmd 1) then
      (ChangeResponseType.ADD_NEXT_WAYPOINT, ReturnSite.line_67)
    else if is_wp_family ids (cmd_list_bak.cmd 0) then
      if is_wp_family ids (cmd_list_bak.cmd 1) then
        if first_changed_cmd_idx = 1 then
          if using_next_command = true then
            (ChangeResponseType.RESET_REQUIRED, ReturnSite.line_87)
          else (ChangeResponseType.NONE, ReturnSite.line_90)
        else (ChangeResponseType.NONE, ReturnSite.line_95)
      else (ChangeResponseType.RESET_REQUIRED, ReturnSite.line_100)
    else if is_wp_family ids (cmd_list_bak.cmd 1) then
      if first_changed_cmd_idx = 1 then
        (ChangeResponseType.RESET_REQUIRED, ReturnSite.line_110)
      else (ChangeResponseType.NONE, ReturnSite.line_114)
    else if is_spline_family ids (cmd_list_bak.cmd 1) then
      if first_changed_cmd_idx = 2 ∧ ((cmd_list_bak.cmd 1).p1 > 0 ∨
          (¬ is_wp_family ids (cmd_list_bak.cmd 2) ∧
            ¬ is_spline_family ids (cmd_list_bak.cmd 2))) then
        (ChangeResponseType.NONE, ReturnSite.line_127)
      else (ChangeResponseType.RESET_REQUIRED, ReturnSite.line_130)
    else (ChangeResponseType.NONE, ReturnSite.line_137) := by
  unfold check_for_mission_change_traced
  simp only [wp_test_eq, spline_test_eq]
  by_cases h : is_wp_family ids (mis_change_detect.cmd 1) <;> cases changed <;> simp [h]

/-- The value component of the traced classifier is the classifier. -/
theorem check_for_mission_change_traced_fst (ids : MAV_CMD)
    (cmd_list_bak mis_change_detect : MissionCommandList)
    (changed : Bool) (first_changed_cmd_idx : Nat) (using_next_command : Bool) :
    (check_for_mission_change_traced ids cmd_list_bak mis_change_detect changed
      first_changed_cmd_idx using_next_command).1 =
    check_for_mission_change ids cmd_list_bak mis_change_detect changed
      first_changed_cmd_idx using_next_command := by
  rw [check_for_mission_change_traced_eq, check_for_mission_change_eq]
  simp only [apply_ite Prod.fst]

/-- An `if` whose two branches differ from `x` differs from `x`. -/
theorem ite_ne_of {α : Type} (c : Prop) [Decidable c] (a b x : α)
    (ha : a ≠ x) (hb : b ≠ x) : (if c then a else b) ≠ x := by
  by_cases h : c
  · rw [if_pos h]; exact ha
  · rw [if_neg h]; exact hb

/-! ### C1: a change of the current command -/

/-- C1 (current-leg sensitivity): whenever the differ reports a change whose
first changed index is 0, the classifier returns `RESET_REQUIRED`, whatever the
two windows and `using_next_command` are. -/
theorem current_leg_change_resets (ids : MAV_CMD)
    (cmd_list_bak mis_change_detect : MissionCommandList)
    (changed : Bool) (first_changed_cmd_idx : Nat) (using_next_command : Bool)
    (hchanged : changed = true) (hidx : first_changed_cmd_idx = 0) :
    check_for_mission_change ids cmd_list_bak mis_change_detect changed
      first_changed_cmd_idx using_next_command = ChangeResponseType.RESET_REQUIRED := by
  subst hchanged hidx
  simp [check_for_mission_change]

/-- C1 at a concrete input: the pause of the current waypoint is edited from 0
to 4 in a two-command window. -/
theorem current_leg_change_resets_witness :
    check_for_mission_change mavlink_common (window (wp 0) (wp 0) empty_slot 2)
      (window (wp 4) (wp 0) empty_slot 2) true 0 false =
      ChangeResponseType.RESET_REQUIRED :=
  current_leg_change_resets mavlink_common (window (wp 0) (wp 0) empty_slot 2)
    (window (wp 4) (wp 0) empty_slot 2) true 0 false rfl rfl

/-! ### C2: no change -/

/-- C2 (no-op): whenever the differ reports that the window has not changed,
the classifier returns `NONE`, whatever the windows, the index left in
`first_changed_cmd_idx` and `using_next_command` are. -/
theorem unchanged_window_gives_none (ids : MAV_CMD)
    (cmd_list_bak mis_change_detect : MissionCommandList)
    (changed : Bool) (first_changed_cmd_idx : Nat) (using_next_command : Bool)
    (hchanged : changed = false) :
    check_for_mission_change ids cmd_list_bak mis_change_detect changed
      first_changed_cmd_idx using_next_command = ChangeResponseType.NONE := by
  subst hchanged
  simp [check_for_mission_change]

/-- C2 at a concrete input: a second poll over the same two-command window. -/
theorem unchanged_window_gives_none_witness :
    check_for_mission_change mavlink_common (window (wp 0) (spline 0) empty_slot 2)
      (window (wp 0) (spline 0) empty_slot 2) false 0 true = ChangeResponseType.NONE :=
  unchanged_window_gives_none mavlink_common (window (wp 0) (spline 0) empty_slot 2)
    (window (wp 0) (spline 0) empty_slot 2) false 0 true rfl

/-! ### C3: a pause on the current command -/

/-- C3 (pause suppresses lookahead reaction): if the old index-0 command has
`p1 > 0` and the differ reports a change whose first changed index is
strictly greater than 0, the classifier returns `NONE`. -/
theorem pause_suppresses_lookahead (ids : MAV_CMD)
    (cmd_list_bak mis_change_detect : MissionCommandList)
    (changed : Bool) (first_changed_cmd_idx : Nat) (using_next_command : Bool)
    (hpause : (cmd_list_bak.cmd 0).p1 > 0)
    (hchanged : changed = true) (hidx : first_changed_cmd_idx > 0) :
    check_for_mission_change ids cmd_list_bak mis_change_detect changed
      first_changed_cmd_idx using_next_command = ChangeResponseType.NONE := by
  subst hchanged
  have h0 : first_changed_cmd_idx ≠ 0 := by omega
  rw [check_for_mission_change_eq]
  simp [h0, hpause]

/-- C3 at a concrete input: the current waypoint has pause 5 and the next
command, a spline, is edited while the controller already uses it. -/
theorem pause_suppresses_lookahead_witness :
    ((window (wp 5) (spline 0) empty_slot 2).cmd 0).p1 > 0 ∧
    check_for_mission_change mavlink_common (window (wp 5) (spline 0) empty_slot 2)
      (window (wp 5) (spline 1) empty_slot 2) true 1 true = ChangeResponseType.NONE :=
  ⟨by decide,
   pause_suppresses_lookahead mavlink_common (window (wp 5) (spline 0) empty_slot 2)
    (window (wp 5) (spline 1) empty_slot 2) true 1 true (by decide) rfl (by decide)⟩

/-! ### C4: a waypoint is appended -/

/-- C4 as stated fails on a paused current waypoint: the old window has one
populated slot holding a waypoint with pause 5 (slot 1 still holds an earlier
waypoint), the new window has two populated slots with a waypoint at index 1,
the differ reports a change at index 1, and the classifier returns `NONE`,
not `ADD_NEXT_WAYPOINT`. -/
theorem add_next_waypoint_fails_with_pause :
    (window (wp 5) (wp 3) empty_slot 1).cmd_count = 1 ∧
    is_wp_family mavlink_common ((window (wp 5) (wp 3) empty_slot 1).cmd 0) ∧
    (window (wp 5) (wp 0) empty_slot 2).cmd_count > 1 ∧
    is_wp_family mavlink_common ((window (wp 5) (wp 0) empty_slot 2).cmd 1) ∧
    check_for_mission_change mavlink_common (window (wp 5) (wp 3) empty_slot 1)
      (window (wp 5) (wp 0) empty_slot 2) true 1 false = ChangeResponseType.NONE := by
  decide

/-- Alongside C4: when slot 1 of the one-command old window was never written,
the identifier test on that slot returns first and the response to an
appended waypoint is `NONE`. -/
theorem add_next_waypoint_reads_old_slot :
    check_for_mission_change mavlink_common (window (wp 0) empty_slot empty_slot 1)
      (window (wp 0) (wp 0) empty_slot 2) true 1 false = ChangeResponseType.NONE := by
  decide

/-- C4, amended (addition of a waypoint): if the old window has exactly one
populated slot, its index-0 command is waypoint-family without pause, its
slot 1 holds a waypoint- or spline-family identifier, the new window has
more than one populated slot with a waypoint-family command at index 1, and
the differ reports a change at index 1, the classifier returns
`ADD_NEXT_WAYPOINT`. -/
theorem add_next_waypoint_without_pause (ids : MAV_CMD)
    (cmd_list_bak mis_change_detect : MissionCommandList)
    (changed : Bool) (first_changed_cmd_idx : Nat) (using_next_command : Bool)
    (hcount : cmd_list_bak.cmd_count = 1)
    (hwp0 : is_wp_family ids (cmd_list_bak.cmd 0))
    (hnopause : ¬ (cmd_list_bak.cmd 0).p1 > 0)
    (hslot1 : is_wp_family ids (cmd_list_bak.cmd 1) ∨
      is_spline_family ids (cmd_list_bak.cmd 1))
    (hnewcount : mis_change_detect.cmd_count > 1)
    (hnewwp : is_wp_family ids (mis_change_detect.cmd 1))
    (hchanged : changed = true) (hidx : first_changed_cmd_idx = 1) :
    check_for_mission_change ids cmd_list_bak mis_change_detect changed
      first_changed_cmd_idx using_next_command =
      ChangeResponseType.ADD_NEXT_WAYPOINT := by
  subst hchanged hidx
  have hp : (cmd_list_bak.cmd 0).p1 = 0 := by omega
  have hs : ¬ (¬ is_wp_family ids (cmd_list_bak.cmd 1) ∧
      ¬ is_spline_family ids (cmd_list_bak.cmd 1)) := by tauto
  rw [check_for_mission_change_eq]
  simp [hcount, hwp0, hp, hs, hnewcount, hnewwp]

/-- C4, amended, at a concrete input: a waypoint is appended behind an
unpaused waypoint whose window held a waypoint in slot 1 before. -/
theorem add_next_waypoint_without_pause_witness :
    (window (wp 0) (wp 3) empty_slot 1).cmd_count = 1 ∧
    is_wp_family mavlink_common ((window (wp 0) (wp 3) empty_slot 1).cmd 0) ∧
    ¬ ((window (wp 0) (wp 3) empty_slot 1).cmd 0).p1 > 0 ∧
    (window (wp 0) (wp 0) empty_slot 2).cmd_count > 1 ∧
    is_wp_family mavlink_common ((window (wp 0) (wp 0) empty_slot 2).cmd 1) ∧
    check_for_mission_change mavlink_common (window (wp 0) (wp 3) empty_slot 1)
      (window (wp 0) (wp 0) empty_slot 2) true 1 false =
      ChangeResponseType.ADD_NEXT_WAYPOINT :=
  ⟨by decide, by decide, by decide, by decide, by decide,
   add_next_waypoint_without_pause mavlink_common (window (wp 0) (wp 3) empty_slot 1)
    (window (wp 0) (wp 0) empty_slot 2) true 1 false (by decide) (by decide) (by decide)
    (by decide) (by decide) (by decide) rfl rfl⟩

/-! ### C5: a spline is appended -/

/-- C5 at the failing input: the old window has one populated slot holding an
unpaused waypoint and slots 1 and 2 never written, the new window has two
populated slots with a spline at index 1, the differ reports a change at
index 1 and `using_next_command` is true.  The classifier returns `NONE` from
line 51 (the identifier test on the old slot 1), where the claim, the comment
of lines 61-62 and the "2nd is spline" branch of lines 68-71 have
`RESET_REQUIRED`. -/
theorem added_spline_gives_none :
    (window (wp 0) empty_slot empty_slot 1).cmd_count = 1 ∧
    is_wp_family mavlink_common ((window (wp 0) empty_slot empty_slot 1).cmd 0) ∧
    ¬ ((window (wp 0) empty_slot empty_slot 1).cmd 0).p1 > 0 ∧
    (window (wp 0) (spline 0) empty_slot 2).cmd_count > 1 ∧
    is_spline_family mavlink_common ((window (wp 0) (spline 0) empty_slot 2).cmd 1) ∧
    check_for_mission_change_traced mavlink_common (window (wp 0) empty_slot empty_slot 1)
      (window (wp 0) (spline 0) empty_slot 2) true 1 true =
      (ChangeResponseType.NONE, ReturnSite.line_51) ∧
    check_for_mission_change mavlink_common (window (wp 0) empty_slot empty_slot 1)
      (window (wp 0) (spline 0) empty_slot 2) true 1 true = ChangeResponseType.NONE := by
  decide

/-- Alongside C5: with the same new window, the response follows what the old
window still holds in its unpopulated slot 1 (never written: `NONE`; a
waypoint: `NONE` or `RESET_REQUIRED` after `using_next_command`; a spline:
`RESET_REQUIRED`), not the family of the appended command. -/
theorem added_spline_follows_old_slot :
    check_for_mission_change mavlink_common (window (wp 0) empty_slot empty_slot 1)
      (window (wp 0) (spline 0) empty_slot 2) true 1 false = ChangeResponseType.NONE ∧
    check_for_mission_change mavlink_common (window (wp 0) (wp 0) empty_slot 1)
      (window (wp 0) (spline 0) empty_slot 2) true 1 false = ChangeResponseType.NONE ∧
    check_for_mission_change mavlink_common (window (wp 0) (wp 0) empty_slot 1)
      (window (wp 0) (spline 0) empty_slot 2) true 1 true =
      ChangeResponseType.RESET_REQUIRED ∧
    check_for_mission_change mavlink_common (window (wp 0) (spline 0) empty_slot 1)
      (window (wp 0) (spline 0) empty_slot 2) true 1 false =
      ChangeResponseType.RESET_REQUIRED := by
  decide

/-- Alongside C5: behind a waypoint with pause 5 the pause guard of line 49
returns `NONE` before the addition is looked at, here with an earlier spline
left in slot 1 of the old window, so that the pause alone decides. -/
theorem added_spline_behind_pause :
    ((window (wp 5) (spline 0) empty_slot 1).cmd 0).p1 > 0 ∧
    check_for_mission_change_traced mavlink_common (window (wp 5) (spline 0) empty_slot 1)
      (window (wp 5) (spline 0) empty_slot 2) true 1 true =
      (ChangeResponseType.NONE, ReturnSite.line_51) := by
  decide

/-! ### C6: the next command changes between two waypoints -/

/-- C6 as stated fails on a paused current waypoint: both old commands are
waypoints, the current one has pause 5, the differ reports a change at
index 1 and `using_next_command` is true, yet the classifier returns `NONE`,
not `RESET_REQUIRED`. -/
theorem next_command_gating_fails_with_pause :
    is_wp_family mavlink_common ((window (wp 5) (wp 0) empty_slot 2).cmd 0) ∧
    is_wp_family mavlink_common ((window (wp 5) (wp 0) empty_slot 2).cmd 1) ∧
    check_for_mission_change mavlink_common (window (wp 5) (wp 0) empty_slot 2)
      (window (wp 5) (wp 9) empty_slot 2) true 1 true = ChangeResponseType.NONE := by
  decide

/-- Alongside C6: when slot 1 of a one-command old window still holds a
waypoint and a waypoint is appended, the addition rule comes first and the
response is `ADD_NEXT_WAYPOINT` for both values of `using_next_command`. -/
theorem next_command_gating_after_addition :
    check_for_mission_change mavlink_common (window (wp 0) (wp 3) empty_slot 1)
      (window (wp 0) (wp 0) empty_slot 2) true 1 true =
      ChangeResponseType.ADD_NEXT_WAYPOINT ∧
    check_for_mission_change mavlink_common (window (wp 0) (wp 3) empty_slot 1)
      (window (wp 0) (wp 0) empty_slot 2) true 1 false =
      ChangeResponseType.ADD_NEXT_WAYPOINT := by
  decide

/-- C6, amended (next-command gating): if the old window has at least two
populated slots, its index-0 and index-1 commands are both waypoint-family,
the index-0 command has no pause, and the differ reports a change whose first
changed index is 1, the classifier returns `RESET_REQUIRED` when
`using_next_command` is true and `NONE` when it is false. -/
theorem next_command_gating_without_pause (ids : MAV_CMD)
    (cmd_list_bak mis_change_detect : MissionCommandList)
    (changed : Bool) (first_changed_cmd_idx : Nat) (using_next_command : Bool)
    (hcount : 2 ≤ cmd_list_bak.cmd_count)
    (hwp0 : is_wp_family ids (cmd_list_bak.cmd 0))
    (hnopause : ¬ (cmd_list_bak.cmd 0).p1 > 0)
    (hwp1 : is_wp_family ids (cmd_list_bak.cmd 1))
    (hchanged : changed = true) (hidx : first_changed_cmd_idx = 1) :
    check_for_mission_change ids cmd_list_bak mis_change_detect changed
      first_changed_cmd_idx using_next_command =
      if using_next_command = true then ChangeResponseType.RESET_REQUIRED
      else ChangeResponseType.NONE := by
  subst hchanged hidx
  have hp : (cmd_list_bak.cmd 0).p1 = 0 := by omega
  have hc : cmd_list_bak.cmd_count ≠ 1 := by omega
  rw [check_for_mission_change_eq]
  simp [hwp0, hp, hwp1, hc]

/-- C6, amended, at a concrete input: the second of two unpaused waypoints is
edited; the response is `RESET_REQUIRED` when the controller already uses it
and `NONE` when it does not. -/
theorem next_command_gating_without_pause_witness :
    2 ≤ (window (wp 0) (wp 0) empty_slot 2).cmd_count ∧
    is_wp_family mavlink_common ((window (wp 0) (wp 0) empty_slot 2).cmd 0) ∧
    ¬ ((window (wp 0) (wp 0) empty_slot 2).cmd 0).p1 > 0 ∧
    is_wp_family mavlink_common ((window (wp 0) (wp 0) empty_slot 2).cmd 1) ∧
    check_for_mission_change mavlink_common (window (wp 0) (wp 0) empty_slot 2)
      (window (wp 0) (wp 9) empty_slot 2) true 1 true =
      ChangeResponseType.RESET_REQUIRED ∧
    check_for_mission_change mavlink_common (window (wp 0) (wp 0) empty_slot 2)
      (window (wp 0) (wp 9) empty_slot 2) true 1 false = ChangeResponseType.NONE :=
  ⟨by decide, by decide, by decide, by decide,
   next_command_gating_without_pause mavlink_common (window (wp 0) (wp 0) empty_slot 2)
    (window (wp 0) (wp 9) empty_slot 2) true 1 true (by decide) (by decide) (by decide)
    (by decide) rfl rfl,
   next_command_gating_without_pause mavlink_common (window (wp 0) (wp 0) empty_slot 2)
    (window (wp 0) (wp 9) empty_slot 2) true 1 false (by decide) (by decide) (by decide)
    (by decide) rfl rfl⟩

/-! ### C7: a change beyond the next command, between two waypoints -/

/-- C7 (horizon limit): if the old window has at least two populated slots,
its index-0 and index-1 commands are both waypoint-family and the differ
reports a change whose first changed index is beyond 1, the classifier
returns `NONE`. -/
theorem horizon_limit (ids : MAV_CMD)
    (cmd_list_bak mis_change_detect : MissionCommandList)
    (changed : Bool) (first_changed_cmd_idx : Nat) (using_next_command : Bool)
    (hcount : 2 ≤ cmd_list_bak.cmd_count)
    (hwp0 : is_wp_family ids (cmd_list_bak.cmd 0))
    (hwp1 : is_wp_family ids (cmd_list_bak.cmd 1))
    (hchanged : changed = true) (hidx : 1 < first_changed_cmd_idx) :
    check_for_mission_change ids cmd_list_bak mis_change_detect changed
      first_changed_cmd_idx using_next_command = ChangeResponseType.NONE := by
  subst hchanged
  have h0 : first_changed_cmd_idx ≠ 0 := by omega
  have h1 : first_changed_cmd_idx ≠ 1 := by omega
  have hc : cmd_list_bak.cmd_count ≠ 1 := by omega
  rw [check_for_mission_change_eq]
  simp [hwp0, hwp1, h0, h1, hc]

/-- C7 at the input of the scenario: old window two unpaused waypoints, new
window the same with an unpaused spline appended, first changed index 2. -/
theorem horizon_limit_witness :
    2 ≤ (window (wp 0) (wp 0) empty_slot 2).cmd_count ∧
    is_wp_family mavlink_common ((window (wp 0) (wp 0) empty_slot 2).cmd 0) ∧
    is_wp_family mavlink_common ((window (wp 0) (wp 0) empty_slot 2).cmd 1) ∧
    check_for_mission_change mavlink_common (window (wp 0) (wp 0) empty_slot 2)
      (window (wp 0) (wp 0) (spline 0) 3) true 2 true = ChangeResponseType.NONE :=
  ⟨by decide, by decide, by decide,
   horizon_limit mavlink_common (window (wp 0) (wp 0) empty_slot 2)
    (window (wp 0) (wp 0) (spline 0) 3) true 2 true (by decide) (by decide) (by decide)
    rfl (by decide)⟩

/-! ### C8 and C9: two splines -/

/-- C8 (spline-spline suppression): if the old index-0 command is
spline-family without pause, the old index-1 command is spline-family, the
differ reports a change whose first changed index is exactly 2, and either
the old index-1 command has `p1 > 0` or the old index-2 command is neither
waypoint- nor spline-family, the classifier returns `NONE`. -/
theorem spline_spline_suppression (ids : MAV_CMD)
    (cmd_list_bak mis_change_detect : MissionCommandList)
    (changed : Bool) (first_changed_cmd_idx : Nat) (using_next_command : Bool)
    (hids : ids.spline_distinct)
    (hsp0 : is_spline_family ids (cmd_list_bak.cmd 0))
    (hnopause : ¬ (cmd_list_bak.cmd 0).p1 > 0)
    (hsp1 : is_spline_family ids (cmd_list_bak.cmd 1))
    (hchanged : changed = true) (hidx : first_changed_cmd_idx = 2)
    (hthird : (cmd_list_bak.cmd 1).p1 > 0 ∨
      (¬ is_wp_family ids (cmd_list_bak.cmd 2) ∧
        ¬ is_spline_family ids (cmd_list_bak.cmd 2))) :
    check_for_mission_change ids cmd_list_bak mis_change_detect changed
      first_changed_cmd_idx using_next_command = ChangeResponseType.NONE := by
  subst hchanged hidx
  have hp : (cmd_list_bak.cmd 0).p1 = 0 := by omega
  have hw0 := not_wp_of_spline ids _ hids hsp0
  have hw1 := not_wp_of_spline ids _ hids hsp1
  rw [check_for_mission_change_eq]
  simp only [gt_iff_lt] at hthird
  simp [hsp0, hsp1, hp, hw0, hw1, hthird]

/-- C8 at the input of the scenario: old window spline without pause, spline
with pause 5, waypoint without pause; the third command is modified in fields
the classifier does not read; first changed index 2. -/
theorem spline_spline_suppression_witness :
    mavlink_common.spline_distinct ∧
    is_spline_family mavlink_common ((window (spline 0) (spline 5) (wp 0) 3).cmd 0) ∧
    ¬ ((window (spline 0) (spline 5) (wp 0) 3).cmd 0).p1 > 0 ∧
    is_spline_family mavlink_common ((window (spline 0) (spline 5) (wp 0) 3).cmd 1) ∧
    ((window (spline 0) (spline 5) (wp 0) 3).cmd 1).p1 > 0 ∧
    check_for_mission_change mavlink_common (window (spline 0) (spline 5) (wp 0) 3)
      (window (spline 0) (spline 5) (wp 0) 3) true 2 true = ChangeResponseType.NONE :=
  ⟨by decide, by decide, by decide, by decide, by decide,
   spline_spline_suppression mavlink_common (window (spline 0) (spline 5) (wp 0) 3)
    (window (spline 0) (spline 5) (wp 0) 3) true 2 true (by decide) (by decide)
    (by decide) (by decide) rfl rfl (by decide)⟩

/-- C9 (spline-spline reset): if the old index-0 command is spline-family
without pause, the old index-1 command is spline-family, the differ reports a
change with first changed index at least 1, and it is not the case that the
first changed index is exactly 2 and (the old index-1 command has `p1 > 0` or
the old index-2 command is neither waypoint- nor spline-family), the
classifier returns `RESET_REQUIRED`. -/
theorem spline_spline_reset (ids : MAV_CMD)
    (cmd_list_bak mis_change_detect : MissionCommandList)
    (changed : Bool) (first_changed_cmd_idx : Nat) (using_next_command : Bool)
    (hids : ids.spline_distinct)
    (hsp0 : is_spline_family ids (cmd_list_bak.cmd 0))
    (hnopause : ¬ (cmd_list_bak.cmd 0).p1 > 0)
    (hsp1 : is_spline_family ids (cmd_list_bak.cmd 1))
    (hchanged : changed = true) (hidx : 1 ≤ first_changed_cmd_idx)
    (hnot : ¬ (first_changed_cmd_idx = 2 ∧ ((cmd_list_bak.cmd 1).p1 > 0 ∨
      (¬ is_wp_family ids (cmd_list_bak.cmd 2) ∧
        ¬ is_spline_family ids (cmd_list_bak.cmd 2))))) :
    check_for_mission_change ids cmd_list_bak mis_change_detect changed
      first_changed_cmd_idx using_next_command =
      ChangeResponseType.RESET_REQUIRED := by
  subst hchanged
  have h0 : first_changed_cmd_idx ≠ 0 := by omega
  have hp : (cmd_list_bak.cmd 0).p1 = 0 := by omega
  have hw0 := not_wp_of_spline ids _ hids hsp0
  have hw1 := not_wp_of_spline ids _ hids hsp1
  rw [check_for_mission_change_eq]
  simp only [gt_iff_lt] at hnot
  simp [hsp0, hsp1, hp, hw0, hw1, h0, hnot]

/-- C9 at a concrete input: the second spline, which has pause 5, is itself
edited (first changed index 1); the response is `RESET_REQUIRED`. -/
theorem spline_spline_reset_witness :
    mavlink_common.spline_distinct ∧
    is_spline_family mavlink_common ((window (spline 0) (spline 5) (wp 0) 3).cmd 0) ∧
    ¬ ((window (spline 0) (spline 5) (wp 0) 3).cmd 0).p1 > 0 ∧
    is_spline_family mavlink_common ((window (spline 0) (spline 5) (wp 0) 3).cmd 1) ∧
    ((window (spline 0) (spline 5) (wp 0) 3).cmd 1).p1 > 0 ∧
    check_for_mission_change mavlink_common (window (spline 0) (spline 5) (wp 0) 3)
      (window (spline 0) (spline 6) (wp 0) 3) true 1 false =
      ChangeResponseType.RESET_REQUIRED :=
  ⟨by decide, by decide, by decide, by decide, by decide,
   spline_spline_reset mavlink_common (window (spline 0) (spline 5) (wp 0) 3)
    (window (spline 0) (spline 6) (wp 0) 3) true 1 false (by decide) (by decide)
    (by decide) (by decide) rfl (by decide) (by decide)⟩

/-! ### C10: a waypoint followed by a spline -/

/-- C10 (waypoint-to-spline reset): if the old window has at least two
populated slots, its index-0 command is waypoint-family without pause, its
index-1 command is spline-family and the differ reports a change with first
changed index at least 1, the classifier returns `RESET_REQUIRED`. -/
theorem waypoint_to_spline_reset (ids : MAV_CMD)
    (cmd_list_bak mis_change_detect : MissionCommandList)
    (changed : Bool) (first_changed_cmd_idx : Nat) (using_next_command : Bool)
    (hids : ids.spline_distinct)
    (hcount : 2 ≤ cmd_list_bak.cmd_count)
    (hwp0 : is_wp_family ids (cmd_list_bak.cmd 0))
    (hnopause : ¬ (cmd_list_bak.cmd 0).p1 > 0)
    (hsp1 : is_spline_family ids (cmd_list_bak.cmd 1))
    (hchanged : changed = true) (hidx : 1 ≤ first_changed_cmd_idx) :
    check_for_mission_change ids cmd_list_bak mis_change_detect changed
      first_changed_cmd_idx using_next_command =
      ChangeResponseType.RESET_REQUIRED := by
  subst hchanged
  have h0 : first_changed_cmd_idx ≠ 0 := by omega
  have hc : cmd_list_bak.cmd_count ≠ 1 := by omega
  have hp : (cmd_list_bak.cmd 0).p1 = 0 := by omega
  have hw1 := not_wp_of_spline ids _ hids hsp1
  rw [check_for_mission_change_eq]
  simp [hwp0, hsp1, hp, hw1, h0, hc]

/-- C10 at a concrete input: a third command is appended behind an unpaused
waypoint and a spline (first changed index 2). -/
theorem waypoint_to_spline_reset_witness :
    mavlink_common.spline_distinct ∧
    2 ≤ (window (wp 0) (spline 0) empty_slot 2).cmd_count ∧
    is_wp_family mavlink_common ((window (wp 0) (spline 0) empty_slot 2).cmd 0) ∧
    ¬ ((window (wp 0) (spline 0) empty_slot 2).cmd 0).p1 > 0 ∧
    is_spline_family mavlink_common ((window (wp 0) (spline 0) empty_slot 2).cmd 1) ∧
    check_for_mission_change mavlink_common (window (wp 0) (spline 0) empty_slot 2)
      (window (wp 0) (spline 0) (wp 0) 3) true 2 false =
      ChangeResponseType.RESET_REQUIRED :=
  ⟨by decide, by decide, by decide, by decide, by decide,
   waypoint_to_spline_reset mavlink_common (window (wp 0) (spline 0) empty_slot 2)
    (window (wp 0) (spline 0) (wp 0) 3) true 2 false (by decide) (by decide) (by decide)
    (by decide) (by decide) rfl (by decide)⟩

/-! ### C11: a spline followed by a waypoint -/

/-- C11 (spline-to-waypoint rule): if the old index-0 command is spline-family
without pause, the old index-1 command is waypoint-family and the differ
reports a change with first changed index at least 1, the classifier returns
`RESET_REQUIRED` when the first changed index is 1 and `NONE` otherwise,
whatever `using_next_command` is. -/
theorem spline_to_waypoint_rule (ids : MAV_CMD)
    (cmd_list_bak mis_change_detect : MissionCommandList)
    (changed : Bool) (first_changed_cmd_idx : Nat) (using_next_command : Bool)
    (hids : ids.spline_distinct)
    (hsp0 : is_spline_family ids (cmd_list_bak.cmd 0))
    (hnopause : ¬ (cmd_list_bak.cmd 0).p1 > 0)
    (hwp1 : is_wp_family ids (cmd_list_bak.cmd 1))
    (hchanged : changed = true) (hidx : 1 ≤ first_changed_cmd_idx) :
    check_for_mission_change ids cmd_list_bak mis_change_detect changed
      first_changed_cmd_idx using_next_command =
      if first_changed_cmd_idx = 1 then ChangeResponseType.RESET_REQUIRED
      else ChangeResponseType.NONE := by
  subst hchanged
  have h0 : first_changed_cmd_idx ≠ 0 := by omega
  have hp : (cmd_list_bak.cmd 0).p1 = 0 := by omega
  have hw0 := not_wp_of_spline ids _ hids hsp0
  rw [check_for_mission_change_eq]
  simp [hsp0, hwp1, hp, hw0, h0]

/-- C11 at concrete inputs: behind an unpaused spline, an edit of the next
waypoint gives `RESET_REQUIRED` although the controller does not use it yet,
and an edit of the third command gives `NONE` although it does. -/
theorem spline_to_waypoint_rule_witness :
    mavlink_common.spline_distinct ∧
    is_spline_family mavlink_common ((window (spline 0) (wp 0) (wp 0) 3).cmd 0) ∧
    ¬ ((window (spline 0) (wp 0) (wp 0) 3).cmd 0).p1 > 0 ∧
    is_wp_family mavlink_common ((window (spline 0) (wp 0) (wp 0) 3).cmd 1) ∧
    check_for_mission_change mavlink_common (window (spline 0) (wp 0) (wp 0) 3)
      (window (spline 0) (wp 4) (wp 0) 3) true 1 false =
      ChangeResponseType.RESET_REQUIRED ∧
    check_for_mission_change mavlink_common (window (spline 0) (wp 0) (wp 0) 3)
      (window (spline 0) (wp 0) (wp 4) 3) true 2 true = ChangeResponseType.NONE :=
  ⟨by decide, by decide, by decide, by decide,
   spline_to_waypoint_rule mavlink_common (window (spline 0) (wp 0) (wp 0) 3)
    (window (spline 0) (wp 4) (wp 0) 3) true 1 false (by decide) (by decide) (by decide)
    (by decide) rfl (by decide),
   spline_to_waypoint_rule mavlink_common (window (spline 0) (wp 0) (wp 0) 3)
    (window (spline 0) (wp 0) (wp 4) 3) true 2 true (by decide) (by decide) (by decide)
    (by decide) rfl (by decide)⟩

/-! ### C12 and C13: a command that is neither waypoint nor spline -/

/-- C12 (non-navigable current leg): if the old index-0 command is neither
waypoint-family nor spline-family and the differ reports a change with first
changed index at least 1, the classifier returns `NONE`. -/
theorem non_navigable_current_leg (ids : MAV_CMD)
    (cmd_list_bak mis_change_detect : MissionCommandList)
    (changed : Bool) (first_changed_cmd_idx : Nat) (using_next_command : Bool)
    (hnowp0 : ¬ is_wp_family ids (cmd_list_bak.cmd 0))
    (hnosp0 : ¬ is_spline_family ids (cmd_list_bak.cmd 0))
    (hchanged : changed = true) (hidx : 1 ≤ first_changed_cmd_idx) :
    check_for_mission_change ids cmd_list_bak mis_change_detect changed
      first_changed_cmd_idx using_next_command = ChangeResponseType.NONE := by
  subst hchanged
  have h0 : first_changed_cmd_idx ≠ 0 := by omega
  rw [check_for_mission_change_eq]
  simp [hnowp0, hnosp0, h0]

/-- C12 at a concrete input: the current command is a landing and the waypoint
behind it is edited while the controller already uses it. -/
theorem non_navigable_current_leg_witness :
    ¬ is_wp_family mavlink_common ((window land (wp 0) (wp 0) 3).cmd 0) ∧
    ¬ is_spline_family mavlink_common ((window land (wp 0) (wp 0) 3).cmd 0) ∧
    check_for_mission_change mavlink_common (window land (wp 0) (wp 0) 3)
      (window land (wp 4) (wp 0) 3) true 1 true = ChangeResponseType.NONE :=
  ⟨by decide, by decide,
   non_navigable_current_leg mavlink_common (window land (wp 0) (wp 0) 3)
    (window land (wp 4) (wp 0) 3) true 1 true (by decide) (by decide) rfl (by decide)⟩

/-- C13 (non-navigable next leg): if the old index-0 command is waypoint- or
spline-family, the old index-1 command is neither, and the differ reports a
change with first changed index at least 1, the classifier returns `NONE`,
whatever the new window holds at index 1. -/
theorem non_navigable_next_leg (ids : MAV_CMD)
    (cmd_list_bak mis_change_detect : MissionCommandList)
    (changed : Bool) (first_changed_cmd_idx : Nat) (using_next_command : Bool)
    (_hnav0 : is_wp_family ids (cmd_list_bak.cmd 0) ∨
      is_spline_family ids (cmd_list_bak.cmd 0))
    (hnowp1 : ¬ is_wp_family ids (cmd_list_bak.cmd 1))
    (hnosp1 : ¬ is_spline_family ids (cmd_list_bak.cmd 1))
    (hchanged : changed = true) (hidx : 1 ≤ first_changed_cmd_idx) :
    check_for_mission_change ids cmd_list_bak mis_change_detect changed
      first_changed_cmd_idx using_next_command = ChangeResponseType.NONE := by
  subst hchanged
  have h0 : first_changed_cmd_idx ≠ 0 := by omega
  rw [check_for_mission_change_eq]
  simp [hnowp1, hnosp1, h0]

/-- C13 at a concrete input: behind an unpaused waypoint a landing is replaced
by a spline while the controller already uses the next command. -/
theorem non_navigable_next_leg_witness :
    (is_wp_family mavlink_common ((window (wp 0) land empty_slot 2).cmd 0) ∨
      is_spline_family mavlink_common ((window (wp 0) land empty_slot 2).cmd 0)) ∧
    ¬ is_wp_family mavlink_common ((window (wp 0) land empty_slot 2).cmd 1) ∧
    ¬ is_spline_family mavlink_common ((window (wp 0) land empty_slot 2).cmd 1) ∧
    check_for_mission_change mavlink_common (window (wp 0) land empty_slot 2)
      (window (wp 0) (spline 0) empty_slot 2) true 1 true = ChangeResponseType.NONE :=
  ⟨by decide, by decide, by decide,
   non_navigable_next_leg mavlink_common (window (wp 0) land empty_slot 2)
    (window (wp 0) (spline 0) empty_slot 2) true 1 true (by decide) (by decide)
    (by decide) rfl (by decide)⟩

/-! ### C14: when the incremental response is given -/

/-- C14 (safety bias): if the classifier returns `ADD_NEXT_WAYPOINT`, then the
differ reported a change with first changed index at least 1, the old window
had exactly one populated slot, the new window has more than one, the old
index-0 command is waypoint-family with `p1` not positive and the new index-1
command is waypoint-family; in every other situation the result is `NONE` or
`RESET_REQUIRED`. -/
theorem add_next_waypoint_only_if (ids : MAV_CMD)
    (cmd_list_bak mis_change_detect : MissionCommandList)
    (changed : Bool) (first_changed_cmd_idx : Nat) (using_next_command : Bool) :
    (check_for_mission_change ids cmd_list_bak mis_change_detect changed
        first_changed_cmd_idx using_next_command = ChangeResponseType.ADD_NEXT_WAYPOINT →
      changed = true ∧ 1 ≤ first_changed_cmd_idx ∧ cmd_list_bak.cmd_count = 1 ∧
      mis_change_detect.cmd_count > 1 ∧ is_wp_family ids (cmd_list_bak.cmd 0) ∧
      ¬ (cmd_list_bak.cmd 0).p1 > 0 ∧ is_wp_family ids (mis_change_detect.cmd 1)) ∧
    (¬ (changed = true ∧ 1 ≤ first_changed_cmd_idx ∧ cmd_list_bak.cmd_count = 1 ∧
        mis_change_detect.cmd_count > 1 ∧ is_wp_family ids (cmd_list_bak.cmd 0) ∧
        ¬ (cmd_list_bak.cmd 0).p1 > 0 ∧ is_wp_family ids (mis_change_detect.cmd 1)) →
      check_for_mission_change ids cmd_list_bak mis_change_detect changed
        first_changed_cmd_idx using_next_command = ChangeResponseType.NONE ∨
      check_for_mission_change ids cmd_list_bak mis_change_detect changed
        first_changed_cmd_idx using_next_command = ChangeResponseType.RESET_REQUIRED) := by
  have key : check_for_mission_change ids cmd_list_bak mis_change_detect changed
        first_changed_cmd_idx using_next_command = ChangeResponseType.ADD_NEXT_WAYPOINT →
      changed = true ∧ 1 ≤ first_changed_cmd_idx ∧ cmd_list_bak.cmd_count = 1 ∧
      mis_change_detect.cmd_count > 1 ∧ is_wp_family ids (cmd_list_bak.cmd 0) ∧
      ¬ (cmd_list_bak.cmd 0).p1 > 0 ∧ is_wp_family ids (mis_change_detect.cmd 1) := by
    rw [check_for_mission_change_eq]
    by_cases hc : changed = false
    · rw [if_pos hc]; intro h; exact absurd h (by decide)
    rw [if_neg hc]
    by_cases h0 : first_changed_cmd_idx = 0
    · rw [if_pos h0]; intro h; exact absurd h (by decide)
    rw [if_neg h0]
    by_cases h1 : ¬ is_wp_family ids (cmd_list_bak.cmd 0) ∧
        ¬ is_spline_family ids (cmd_list_bak.cmd 0)
    · rw [if_pos h1]; intro h; exact absurd h (by decide)
    rw [if_neg h1]
    by_cases h2 : (cmd_list_bak.cmd 0).p1 > 0 ∨ (¬ is_wp_family ids (cmd_list_bak.cmd 1) ∧
        ¬ is_spline_family ids (cmd_list_bak.cmd 1))
    · rw [if_pos h2]; intro h; exact absurd h (by decide)
    rw [if_neg h2]
    by_cases h3 : is_wp_family ids (cmd_list_bak.cmd 0) ∧ (cmd_list_bak.cmd_count = 1 ∧
        mis_change_detect.cmd_count > 1) ∧ is_wp_family ids (mis_change_detect.cmd 1)
    · intro _
      exact ⟨by simpa using hc, by omega, h3.2.1.1, h3.2.1.2, h3.1,
        fun hp => h2 (Or.inl hp), h3.2.2⟩
    rw [if_neg h3]
    intro h
    exfalso
    revert h
    split_ifs <;> decide
  refine ⟨key, fun hn => ?_⟩
  cases hr : check_for_mission_change ids cmd_list_bak mis_change_detect changed
        first_changed_cmd_idx using_next_command
  · exact Or.inl rfl
  · exact absurd (key hr) hn
  · exact Or.inr rfl

/-- C14 at a concrete input: a waypoint appended behind an unpaused waypoint
gives `ADD_NEXT_WAYPOINT`, and the conditions of the incremental response
hold there. -/
theorem add_next_waypoint_only_if_witness :
    check_for_mission_change mavlink_common (window (wp 0) (wp 3) empty_slot 1)
      (window (wp 0) (wp 0) empty_slot 2) true 1 true =
      ChangeResponseType.ADD_NEXT_WAYPOINT ∧
    (true = true ∧ 1 ≤ 1 ∧ (window (wp 0) (wp 3) empty_slot 1).cmd_count = 1 ∧
      (window (wp 0) (wp 0) empty_slot 2).cmd_count > 1 ∧
      is_wp_family mavlink_common ((window (wp 0) (wp 3) empty_slot 1).cmd 0) ∧
      ¬ ((window (wp 0) (wp 3) empty_slot 1).cmd 0).p1 > 0 ∧
      is_wp_family mavlink_common ((window (wp 0) (wp 0) empty_slot 2).cmd 1)) :=
  ⟨by decide,
   (add_next_waypoint_only_if mavlink_common (window (wp 0) (wp 3) empty_slot 1)
    (window (wp 0) (wp 0) empty_slot 2) true 1 true).1 (by decide)⟩

/-! ### C15: a command that is neither waypoint nor spline is appended -/

/-- C15 at the failing input: the old window has one populated slot holding an
unpaused waypoint while its slot 1 still holds a spline from an earlier
window; a landing is appended (new count 2) and the differ reports a change at
index 1.  With `using_next_command` false the classifier returns
`RESET_REQUIRED` (the return of line 100), not `NONE`. -/
theorem added_other_command_resets :
    (window (wp 0) (spline 0) empty_slot 1).cmd_count = 1 ∧
    is_wp_family mavlink_common ((window (wp 0) (spline 0) empty_slot 1).cmd 0) ∧
    ¬ ((window (wp 0) (spline 0) empty_slot 1).cmd 0).p1 > 0 ∧
    (window (wp 0) land empty_slot 2).cmd_count > 1 ∧
    ¬ is_wp_family mavlink_common ((window (wp 0) land empty_slot 2).cmd 1) ∧
    ¬ is_spline_family mavlink_common ((window (wp 0) land empty_slot 2).cmd 1) ∧
    check_for_mission_change_traced mavlink_common (window (wp 0) (spline 0) empty_slot 1)
      (window (wp 0) land empty_slot 2) true 1 false =
      (ChangeResponseType.RESET_REQUIRED, ReturnSite.line_100) ∧
    check_for_mission_change mavlink_common (window (wp 0) (spline 0) empty_slot 1)
      (window (wp 0) land empty_slot 2) true 1 false =
      ChangeResponseType.RESET_REQUIRED := by
  decide

/-- Alongside C15: with the same appended landing, the response follows what
the old window holds in its unpopulated slot 1: never written gives `NONE`
(line 51), a waypoint gives `RESET_REQUIRED` when `using_next_command` is true
(line 87) and `NONE` when it is false (line 90). -/
theorem added_other_command_follows_old_slot :
    check_for_mission_change_traced mavlink_common (window (wp 0) empty_slot empty_slot 1)
      (window (wp 0) land empty_slot 2) true 1 true =
      (ChangeResponseType.NONE, ReturnSite.line_51) ∧
    check_for_mission_change_traced mavlink_common (window (wp 0) (wp 3) empty_slot 1)
      (window (wp 0) land empty_slot 2) true 1 true =
      (ChangeResponseType.RESET_REQUIRED, ReturnSite.line_87) ∧
    check_for_mission_change_traced mavlink_common (window (wp 0) (wp 3) empty_slot 1)
      (window (wp 0) land empty_slot 2) true 1 false =
      (ChangeResponseType.NONE, ReturnSite.line_90) := by
  decide

/-! ### C16: slots beyond the old count -/

/-- C16 at the failing input: two old windows with count 1 that agree on every
slot below the count (slot 0, an unpaused waypoint) and differ only in the
unpopulated slot 1 (never written, or an earlier waypoint); with the same new
window (a waypoint appended), the same differ result (change at index 1) and
the same `using_next_command`, the first gives `NONE` and the second
`ADD_NEXT_WAYPOINT`. -/
theorem unpopulated_slot_changes_response :
    (window (wp 0) empty_slot empty_slot 1).cmd_count =
      (window (wp 0) (wp 3) empty_slot 1).cmd_count ∧
    (∀ i : Fin mis_change_detect_cmd_max,
      i.val < (window (wp 0) empty_slot empty_slot 1).cmd_count →
      (window (wp 0) empty_slot empty_slot 1).cmd i =
        (window (wp 0) (wp 3) empty_slot 1).cmd i) ∧
    check_for_mission_change mavlink_common (window (wp 0) empty_slot empty_slot 1)
      (window (wp 0) (wp 0) empty_slot 2) true 1 false = ChangeResponseType.NONE ∧
    check_for_mission_change mavlink_common (window (wp 0) (wp 3) empty_slot 1)
      (window (wp 0) (wp 0) empty_slot 2) true 1 false =
      ChangeResponseType.ADD_NEXT_WAYPOINT := by
  decide

/-- Alongside C16: the same for slot 2.  Two old windows with count 2, both
two unpaused splines, differ only in the unpopulated slot 2 (never written, or
an earlier waypoint); when a third command is appended (change at index 2) the
first gives `NONE` and the second `RESET_REQUIRED`. -/
theorem unpopulated_third_slot_changes_response :
    (∀ i : Fin mis_change_detect_cmd_max,
      i.val < (window (spline 0) (spline 0) empty_slot 2).cmd_count →
      (window (spline 0) (spline 0) empty_slot 2).cmd i =
        (window (spline 0) (spline 0) (wp 0) 2).cmd i) ∧
    check_for_mission_change mavlink_common (window (spline 0) (spline 0) empty_slot 2)
      (window (spline 0) (spline 0) (wp 0) 3) true 2 false = ChangeResponseType.NONE ∧
    check_for_mission_change mavlink_common (window (spline 0) (spline 0) (wp 0) 2)
      (window (spline 0) (spline 0) (wp 0) 3) true 2 false =
      ChangeResponseType.RESET_REQUIRED := by
  decide

/-! ### C17: the return at the end of the function -/

/-- C17 (the final fallback is unreachable): for every old window, new window,
differ result and `using_next_command`, the classifier returns from a `return`
other than the "got to end" one of line 137. -/
theorem final_fallback_unreachable (ids : MAV_CMD)
    (cmd_list_bak mis_change_detect : MissionCommandList)
    (changed : Bool) (first_changed_cmd_idx : Nat) (using_next_command : Bool) :
    (check_for_mission_change_traced ids cmd_list_bak mis_change_detect changed
      first_changed_cmd_idx using_next_command).2 ≠ ReturnSite.line_137 := by
  rw [check_for_mission_change_traced_eq]
  simp only [apply_ite Prod.snd]
  by_cases hw1 : is_wp_family ids (cmd_list_bak.cmd 1)
  · simp only [hw1, if_true]
    split_ifs <;> simp
  · by_cases hs1 : is_spline_family ids (cmd_list_bak.cmd 1)
    · simp only [hs1, if_true]
      split_ifs <;> simp
    · simp only [hw1, hs1, not_false_eq_true, and_self, or_true, if_true, if_false]
      split_ifs <;> simp

/-! ### C18: the role of `using_next_command` -/

/-- C18 (`using_next_command` gates one case and is monotone): the responses
for `using_next_command` true and false differ only when the differ reports
first changed index 1, the old index-0 command is waypoint-family without
pause, the old index-1 command is waypoint-family and the addition case (old
count 1, new count above 1, new index-1 command waypoint-family) does not
hold; in that case true gives `RESET_REQUIRED` and false gives `NONE`; and
whenever the response with false is `RESET_REQUIRED`, so is the response with
true. -/
theorem using_next_command_gates_one_case (ids : MAV_CMD)
    (cmd_list_bak mis_change_detect : MissionCommandList)
    (changed : Bool) (first_changed_cmd_idx : Nat) :
    (check_for_mission_change ids cmd_list_bak mis_change_detect changed
        first_changed_cmd_idx true ≠
      check_for_mission_change ids cmd_list_bak mis_change_detect changed
        first_changed_cmd_idx false →
      (changed = true ∧ first_changed_cmd_idx = 1 ∧
        is_wp_family ids (cmd_list_bak.cmd 0) ∧ ¬ (cmd_list_bak.cmd 0).p1 > 0 ∧
        is_wp_family ids (cmd_list_bak.cmd 1) ∧
        ¬ (cmd_list_bak.cmd_count = 1 ∧ mis_change_detect.cmd_count > 1 ∧
          is_wp_family ids (mis_change_detect.cmd 1)))) ∧
    ((changed = true ∧ first_changed_cmd_idx = 1 ∧
        is_wp_family ids (cmd_list_bak.cmd 0) ∧ ¬ (cmd_list_bak.cmd 0).p1 > 0 ∧
        is_wp_family ids (cmd_list_bak.cmd 1) ∧
        ¬ (cmd_list_bak.cmd_count = 1 ∧ mis_change_detect.cmd_count > 1 ∧
          is_wp_family ids (mis_change_detect.cmd 1))) →
      check_for_mission_change ids cmd_list_bak mis_change_detect changed
        first_changed_cmd_idx true = ChangeResponseType.RESET_REQUIRED ∧
      check_for_mission_change ids cmd_list_bak mis_change_detect changed
        first_changed_cmd_idx false = ChangeResponseType.NONE) ∧
    (check_for_mission_change ids cmd_list_bak mis_change_detect changed
        first_changed_cmd_idx false = ChangeResponseType.RESET_REQUIRED →
      check_for_mission_change ids cmd_list_bak mis_change_detect changed
        first_changed_cmd_idx true = ChangeResponseType.RESET_REQUIRED) := by
  by_cases hcond : (changed = true ∧ first_changed_cmd_idx = 1 ∧
        is_wp_family ids (cmd_list_bak.cmd 0) ∧ ¬ (cmd_list_bak.cmd 0).p1 > 0 ∧
        is_wp_family ids (cmd_list_bak.cmd 1) ∧
        ¬ (cmd_list_bak.cmd_count = 1 ∧ mis_change_detect.cmd_count > 1 ∧
          is_wp_family ids (mis_change_detect.cmd 1)))
  · have hboth : check_for_mission_change ids cmd_list_bak mis_change_detect changed
          first_changed_cmd_idx true = ChangeResponseType.RESET_REQUIRED ∧
        check_for_mission_change ids cmd_list_bak mis_change_detect changed
          first_changed_cmd_idx false = ChangeResponseType.NONE := by
      obtain ⟨hc, hi, hw0, hp, hw1, hadd⟩ := hcond
      subst hc hi
      have hp0 : (cmd_list_bak.cmd 0).p1 = 0 := by omega
      have ha : ¬ ((cmd_list_bak.cmd_count = 1 ∧ 1 < mis_change_detect.cmd_count) ∧
          is_wp_family ids (mis_change_detect.cmd 1)) := by tauto
      rw [check_for_mission_change_eq, check_for_mission_change_eq]
      simp [hw0, hp0, hw1, ha]
    refine ⟨fun _ => hcond, fun _ => hboth, fun h => ?_⟩
    rw [hboth.2] at h
    exact absurd h (by decide)
  · have heq : check_for_mission_change ids cmd_list_bak mis_change_detect changed
          first_changed_cmd_idx true =
        check_for_mission_change ids cmd_list_bak mis_change_detect changed
          first_changed_cmd_idx false := by
      rw [check_for_mission_change_eq, check_for_mission_change_eq]
      by_cases hc : changed = false
      · simp [hc]
      by_cases h0 : first_changed_cmd_idx = 0
      · simp [h0]
      by_cases hw0 : is_wp_family ids (cmd_list_bak.cmd 0)
      swap
      · simp [hw0]
      by_cases hp : (cmd_list_bak.cmd 0).p1 > 0
      · simp [hp]
      by_cases hw1 : is_wp_family ids (cmd_list_bak.cmd 1)
      swap
      · simp [hw1]
      by_cases hi : first_changed_cmd_idx = 1
      swap
      · simp [hi]
      by_cases hadd : cmd_list_bak.cmd_count = 1 ∧ mis_change_detect.cmd_count > 1 ∧
          is_wp_family ids (mis_change_detect.cmd 1)
      · have hp0 : (cmd_list_bak.cmd 0).p1 = 0 := by omega
        simp [hw0, hp0, hw1, hadd.1, hadd.2.1, hadd.2.2]
      · exact absurd ⟨by simpa using hc, hi, hw0, hp, hw1, hadd⟩ hcond
    refine ⟨fun h => absurd heq h, fun h => absurd h hcond, fun h => ?_⟩
    rw [heq]
    exact h

/-- C18 at a concrete input: the second of two unpaused waypoints is edited in
a two-command window; the gating conditions hold, true gives `RESET_REQUIRED`
and false gives `NONE`. -/
theorem using_next_command_gates_one_case_witness :
    (true = true ∧ 1 = 1 ∧
      is_wp_family mavlink_common ((window (wp 0) (wp 0) empty_slot 2).cmd 0) ∧
      ¬ ((window (wp 0) (wp 0) empty_slot 2).cmd 0).p1 > 0 ∧
      is_wp_family mavlink_common ((window (wp 0) (wp 0) empty_slot 2).cmd 1) ∧
      ¬ ((window (wp 0) (wp 0) empty_slot 2).cmd_count = 1 ∧
        (window (wp 0) (wp 9) empty_slot 2).cmd_count > 1 ∧
        is_wp_family mavlink_common ((window (wp 0) (wp 9) empty_slot 2).cmd 1))) ∧
    (check_for_mission_change mavlink_common (window (wp 0) (wp 0) empty_slot 2)
      (window (wp 0) (wp 9) empty_slot 2) true 1 true =
      ChangeResponseType.RESET_REQUIRED ∧
     check_for_mission_change mavlink_common (window (wp 0) (wp 0) empty_slot 2)
      (window (wp 0) (wp 9) empty_slot 2) true 1 false = ChangeResponseType.NONE) :=
  ⟨by decide,
   (using_next_command_gates_one_case mavlink_common (window (wp 0) (wp 0) empty_slot 2)
    (window (wp 0) (wp 9) empty_slot 2) true 1).2.1 (by decide)⟩

/-! ### C19: the addition block -/

/-- C19 (the addition block has a single live outcome): for every input the
classifier never returns from the inner "2nd is spline" return (line 71) nor
from the inner "2nd is neither" return (line 75) of the addition block; and
whenever control reaches the block (no return at lines 19, 26, 40 or 51) and
its guard holds (old index-0 command waypoint-family, old count 1 and new
count above 1, new index-1 command waypoint-family), the classifier returns
`ADD_NEXT_WAYPOINT` from line 67. -/
theorem addition_block_single_outcome (ids : MAV_CMD)
    (cmd_list_bak mis_change_detect : MissionCommandList)
    (changed : Bool) (first_changed_cmd_idx : Nat) (using_next_command : Bool) :
    (check_for_mission_change_traced ids cmd_list_bak mis_change_detect changed
      first_changed_cmd_idx using_next_command).2 ≠ ReturnSite.line_71 ∧
    (check_for_mission_change_traced ids cmd_list_bak mis_change_detect changed
      first_changed_cmd_idx using_next_command).2 ≠ ReturnSite.line_75 ∧
    ((check_for_mission_change_traced ids cmd_list_bak mis_change_detect changed
        first_changed_cmd_idx using_next_command).2 ≠ ReturnSite.line_19 →
     (check_for_mission_change_traced ids cmd_list_bak mis_change_detect changed
        first_changed_cmd_idx using_next_command).2 ≠ ReturnSite.line_26 →
     (check_for_mission_change_traced ids cmd_list_bak mis_change_detect changed
        first_changed_cmd_idx using_next_command).2 ≠ ReturnSite.line_40 →
     (check_for_mission_change_traced ids cmd_list_bak mis_change_detect changed
        first_changed_cmd_idx using_next_command).2 ≠ ReturnSite.line_51 →
     is_wp_family ids (cmd_list_bak.cmd 0) →
     cmd_list_bak.cmd_count = 1 ∧ mis_change_detect.cmd_count > 1 →
     is_wp_family ids (mis_change_detect.cmd 1) →
     check_for_mission_change ids cmd_list_bak mis_change_detect changed
        first_changed_cmd_idx using_next_command =
       ChangeResponseType.ADD_NEXT_WAYPOINT ∧
     (check_for_mission_change_traced ids cmd_list_bak mis_change_detect changed
        first_changed_cmd_idx using_next_command).2 = ReturnSite.line_67) := by
  refine ⟨?_, ?_, ?_⟩
  · rw [check_for_mission_change_traced_eq]
    simp only [apply_ite Prod.snd]
    repeat' apply ite_ne_of
    all_goals exact fun h => ReturnSite.noConfusion h
  · rw [check_for_mission_change_traced_eq]
    simp only [apply_ite Prod.snd]
    repeat' apply ite_ne_of
    all_goals exact fun h => ReturnSite.noConfusion h
  · intro h19 h26 h40 h51 hw0 hadd hnew
    have hc : ¬ changed = false := fun hc =>
      h19 (by rw [check_for_mission_change_traced_eq, if_pos hc])
    have h0 : ¬ first_changed_cmd_idx = 0 := fun h0 =>
      h26 (by rw [check_for_mission_change_traced_eq, if_neg hc, if_pos h0])
    have h1 : ¬ (¬ is_wp_family ids (cmd_list_bak.cmd 0) ∧
        ¬ is_spline_family ids (cmd_list_bak.cmd 0)) := fun h1 =>
      h40 (by rw [check_for_mission_change_traced_eq, if_neg hc, if_neg h0, if_pos h1])
    have h2 : ¬ ((cmd_list_bak.cmd 0).p1 > 0 ∨ (¬ is_wp_family ids (cmd_list_bak.cmd 1) ∧
        ¬ is_spline_family ids (cmd_list_bak.cmd 1))) := fun h2 =>
      h51 (by rw [check_for_mission_change_traced_eq, if_neg hc, if_neg h0, if_neg h1,
        if_pos h2])
    have ht : check_for_mission_change_traced ids cmd_list_bak mis_change_detect changed
        first_changed_cmd_idx using_next_command =
        (ChangeResponseType.ADD_NEXT_WAYPOINT, ReturnSite.line_67) := by
      rw [check_for_mission_change_traced_eq, if_neg hc, if_neg h0, if_neg h1, if_neg h2,
        if_pos ⟨hw0, hadd, hnew⟩]
    refine ⟨?_, ?_⟩
    · rw [← check_for_mission_change_traced_fst, ht]
    · rw [ht]

/-- C19 at a concrete input: a waypoint is appended behind an unpaused waypoint
whose window held a waypoint in slot 1 before; control reaches the addition
block, its guard holds, and the return is the one of line 67. -/
theorem addition_block_single_outcome_witness :
    is_wp_family mavlink_common ((window (wp 0) (wp 3) empty_slot 1).cmd 0) ∧
    ((window (wp 0) (wp 3) empty_slot 1).cmd_count = 1 ∧
      (window (wp 0) (wp 0) empty_slot 2).cmd_count > 1) ∧
    is_wp_family mavlink_common ((window (wp 0) (wp 0) empty_slot 2).cmd 1) ∧
    check_for_mission_change mavlink_common (window (wp 0) (wp 3) empty_slot 1)
      (window (wp 0) (wp 0) empty_slot 2) true 1 false =
      ChangeResponseType.ADD_NEXT_WAYPOINT ∧
    (check_for_mission_change_traced mavlink_common (window (wp 0) (wp 3) empty_slot 1)
      (window (wp 0) (wp 0) empty_slot 2) true 1 false).2 = ReturnSite.line_67 :=
  ⟨by decide, by decide, by decide,
   (addition_block_single_outcome mavlink_common (window (wp 0) (wp 3) empty_slot 1)
    (window (wp 0) (wp 0) empty_slot 2) true 1 false).2.2 (by decide) (by decide)
    (by decide) (by decide) (by decide) (by decide) (by decide)⟩

end AP_Mission_ChangeDetector_Copter
